import Mathlib

/-!
Verification of the multi-agent development orchestrator core against its
natural-language specification.  The definitions below are a shallow
embedding of the TypeScript source: `src/agents/agent-registry.ts`
(registry, capacity check, matching algorithm), the `BaseAgent` lifecycle
(`executeTask`, `updateMetrics`), `src/core/config.ts`
(`AutomaticConflictResolver.parseConflictFile`) and `src/git/repository.ts`
(`WorktreeManager.removeWorktreeForAgent`, `cleanupStaleWorktrees`).
Maps keyed by strings are modelled as insertion-ordered association lists
(JavaScript `Map` preserves insertion order); machine numbers appearing in
divisions are modelled as rationals; wall-clock readings are passed in as
explicit parameters; filesystem and git outcomes are oracles passed as
functions.
-/

namespace MADO

/-- JavaScript `hay.includes(needle)`: `needle` occurs as a contiguous
substring of `hay` (true when `needle` is empty). -/
def listContainsSub : List Char → List Char → Bool
  | hay, needle =>
    if needle.isPrefixOf hay then true
    else
      match hay with
      | [] => false
      | _ :: t => listContainsSub t needle

/-- `strIncludes hay needle` is JavaScript `hay.includes(needle)`. -/
def strIncludes (hay needle : String) : Bool :=
  listContainsSub hay.toList needle.toList

/-- JavaScript `toLowerCase`, characterwise (the strings this system
compares are ASCII). -/
def strToLower (s : String) : String :=
  String.mk (s.toList.map Char.toLower)

/-- JavaScript `s.startsWith(pre)`, characterwise. -/
def strStartsWith (s pre : String) : Bool :=
  pre.toList.isPrefixOf s.toList

/-- JavaScript `String.prototype.split` on a single separator character:
`"".split(sep) = [""]`, and a trailing separator yields a trailing empty
string. -/
def splitOnChar (sep : Char) : List Char → List String
  | [] => [""]
  | c :: rest =>
    let r := splitOnChar sep rest
    if c = sep then "" :: r
    else
      match r with
      | [] => [String.mk [c]]
      | hd :: tl => String.mk (c :: hd.toList) :: tl

/-- JavaScript `Math.min` on two exact rationals. -/
def ratMin (a b : ℚ) : ℚ := if a ≤ b then a else b

/-- `AgentRole` from `src/types/agent.types.ts`. -/
inductive AgentRole
  | orchestrator
  | frontend
  | backend
  | devops
  | qa
  | full_stack
deriving DecidableEq

/-- `AgentStatus` from `src/types/agent.types.ts`. -/
inductive AgentStatus
  | inactive
  | active
  | busy
  | error
  | starting
  | stopping
deriving DecidableEq

/-- `AgentCapability` from `src/types/agent.types.ts`. -/
structure AgentCapability where
  name : String
  level : Nat
  description : String
deriving DecidableEq

/-- `AgentMetrics` from `src/types/agent.types.ts`.  Durations and rates are
rationals so that the source's floating-point divisions are exact. -/
structure AgentMetrics where
  tasksCompleted : Nat
  averageTaskDuration : ℚ
  successRate : ℚ
  codeQualityScore : ℚ
  collaborationScore : ℚ
deriving DecidableEq

/-- The metrics installed by the `BaseAgent` constructor. -/
def initialMetrics : AgentMetrics :=
  { tasksCompleted := 0
    averageTaskDuration := 0
    successRate := 0
    codeQualityScore := 85
    collaborationScore := 0 }

/-- The `type` field of `TaskRequirement` ('functional' | 'technical' | 'quality'). -/
inductive RequirementType
  | functional
  | technical
  | quality
deriving DecidableEq

/-- `TaskRequirement` from `src/types/task.types.ts`. -/
structure TaskRequirement where
  id : String
  description : String
  type : RequirementType
  satisfied : Bool
deriving DecidableEq

/-- `Task` from `src/types/task.types.ts`, restricted to the fields the
registry and agent code under verification reads. -/
structure Task where
  id : String
  type : String
  title : String
  requirements : List TaskRequirement
deriving DecidableEq

/-- An agent as seen by the registry (`IAgent`).  The interface declares
`metrics` as always present, but `calculatePerformanceScore` guards on
`!agent.metrics`, so the runtime value is modelled as optional. -/
structure Agent where
  id : String
  name : String
  role : AgentRole
  capabilities : List AgentCapability
  status : AgentStatus
  workingDirectory : String
  metrics : Option AgentMetrics
deriving DecidableEq

/-- `AgentConfig` from `src/types/agent.types.ts` (validated fields).
`maxConcurrentTasks` is an integer so that the `< 1` check is meaningful. -/
structure AgentConfig where
  id : String
  name : String
  role : AgentRole
  workingDirectory : String
  capabilities : List AgentCapability
  maxConcurrentTasks : Int
deriving DecidableEq

/-- `TaskAssignment` from `src/types/task.types.ts` (fields the registry
stores in its append-only history). -/
structure TaskAssignment where
  taskId : String
  agentId : String
  confidence : ℚ
deriving DecidableEq

/-- `AgentRegistryConfig` from `src/agents/agent-registry.ts`. -/
structure AgentRegistryConfig where
  maxAgents : Nat
  healthCheckInterval : Nat
  autoRestart : Bool
deriving DecidableEq

/-- The registry's mutable state: the `agents` map, the `agentConfigs` map
(both insertion-ordered) and the assignment history. -/
structure RegistryState where
  agents : List (String × Agent)
  agentConfigs : List (String × AgentConfig)
  assignmentHistory : List TaskAssignment
deriving DecidableEq

/-- The capacity error thrown by `registerAgent`. -/
def capacityMessage (maxAgents : Nat) : String :=
  "Maximum number of agents (" ++ toString maxAgents ++ ") reached"

/-- `AgentRegistry.validateAgentConfig`.  A JavaScript string is falsy
exactly when empty, so `!x || x.trim() === ''` collapses to
`x.trim() = ""`.  The role-enum membership check is always true in a typed
model because `AgentRole` is closed. -/
def validateAgentConfig (config : AgentConfig) : Except String Unit :=
  if config.id.trim = "" then Except.error "Agent ID is required"
  else if config.name.trim = "" then Except.error "Agent name is required"
  else if config.workingDirectory.trim = "" then Except.error "Working directory is required"
  else if config.maxConcurrentTasks < 1 then Except.error "Max concurrent tasks must be at least 1"
  else Except.ok ()

/-- `AgentRegistry.registerAgent`.  Returns the registry state after the call
together with `Except.error msg` when the source throws.  The source checks
capacity, duplicate id and configuration validity in that order, all before
any mutation, so every error branch returns the state unchanged. -/
def registerAgent (cfg : AgentRegistryConfig) (s : RegistryState)
    (agent : Agent) (config : AgentConfig) : RegistryState × Except String Unit :=
  if cfg.maxAgents ≤ s.agents.length then
    (s, Except.error (capacityMessage cfg.maxAgents))
  else if (s.agents.lookup agent.id).isSome then
    (s, Except.error ("Agent with ID " ++ agent.id ++ " is already registered"))
  else
    match validateAgentConfig config with
    | Except.error e => (s, Except.error e)
    | Except.ok _ =>
        ({ s with
            agents := s.agents ++ [(agent.id, agent)]
            agentConfigs := s.agentConfigs ++ [(agent.id, config)] },
          Except.ok ())

/-- C1: with the registry at or above `maxAgents`, `registerAgent` fails with
the capacity error and leaves the agent map, the config map and the
assignment history untouched. -/
theorem registerAgent_capacity (cfg : AgentRegistryConfig) (s : RegistryState)
    (agent : Agent) (config : AgentConfig)
    (h : cfg.maxAgents ≤ s.agents.length) :
    registerAgent cfg s agent config = (s, Except.error (capacityMessage cfg.maxAgents)) := by
  unfold registerAgent
  rw [if_pos h]

/-- A sample registered agent used by the C1 witness. -/
def sampleAgentOne : Agent :=
  { id := "a1", name := "Agent One", role := AgentRole.frontend,
    capabilities := [], status := AgentStatus.active,
    workingDirectory := "/w/a1", metrics := none }

/-- A sample agent whose registration is refused by the full registry. -/
def sampleAgentTwo : Agent :=
  { id := "a2", name := "Agent Two", role := AgentRole.backend,
    capabilities := [], status := AgentStatus.inactive,
    workingDirectory := "/w/a2", metrics := none }

/-- Configuration accompanying `sampleAgentTwo`. -/
def sampleConfigTwo : AgentConfig :=
  { id := "a2", name := "Agent Two", role := AgentRole.backend,
    workingDirectory := "/w/a2", capabilities := [], maxConcurrentTasks := 1 }

/-- A registry state already holding one agent. -/
def fullRegistryState : RegistryState :=
  { agents := [("a1", sampleAgentOne)], agentConfigs := [], assignmentHistory := [] }

/-- A full registry (`maxAgents = 1`, one agent registered): the second
registration fails with the capacity error and changes nothing. -/
theorem registerAgent_capacity_witness :
    registerAgent
      { maxAgents := 1, healthCheckInterval := 30000, autoRestart := true }
      fullRegistryState sampleAgentTwo sampleConfigTwo =
    (fullRegistryState, Except.error (capacityMessage 1)) :=
  registerAgent_capacity _ _ _ _ (by decide)

/-- `AgentRegistry.canAgentHandleTask`: every `technical` requirement's
description must occur (case-insensitively) inside some capability name. -/
def canAgentHandleTask (agent : Agent) (task : Task) : Bool :=
  (task.requirements.filter (fun req => req.type == RequirementType.technical)).all
    (fun req => agent.capabilities.any
      (fun agentCap => strIncludes (strToLower agentCap.name) (strToLower req.description)))

/-- `AgentRegistry.getRoleTaskBonus`: the role/task-type compatibility table. -/
def roleKeywords : AgentRole → List String
  | AgentRole.frontend => ["frontend", "ui", "component", "styling"]
  | AgentRole.backend => ["backend", "api", "database", "server"]
  | AgentRole.devops => ["deployment", "infrastructure", "ci/cd", "monitoring"]
  | AgentRole.qa => ["testing", "quality", "validation", "bug"]
  | AgentRole.full_stack => ["frontend", "backend", "ui", "api"]
  | AgentRole.orchestrator => ["coordination", "management", "planning"]

/-- `AgentRegistry.getRoleTaskBonus`: +0.3 when some role keyword occurs in
the lowercased task type. -/
def getRoleTaskBonus (role : AgentRole) (taskType : String) : ℚ :=
  if (roleKeywords role).any (fun keyword => strIncludes (strToLower taskType) keyword)
  then 3/10 else 0

/-- `AgentRegistry.calculateCapabilityScore`: flat 0.2 with zero technical
requirements; otherwise `min 0.3 (matching/required * 0.3)` where `matching`
counts the agent's capabilities whose name occurs inside SOME requirement's
description (requirements of any type) and `required` counts the technical
requirements. -/
def calculateCapabilityScore (agent : Agent) (task : Task) : ℚ :=
  let requiredCapabilities :=
    (task.requirements.filter (fun req => req.type == RequirementType.technical)).length
  if requiredCapabilities == 0 then 1/5
  else
    let matchingCapabilities := agent.capabilities.filter
      (fun capability => task.requirements.any
        (fun req => strIncludes (strToLower req.description) (strToLower capability.name)))
    ratMin (3/10) (((matchingCapabilities.length : ℚ) / (requiredCapabilities : ℚ)) * (3/10))

/-- `AgentRegistry.calculateLoadScore`. -/
def calculateLoadScore (agent : Agent) : ℚ :=
  if agent.status == AgentStatus.active then 1/5
  else if agent.status == AgentStatus.busy then 1/10
  else 0

/-- `AgentRegistry.calculatePerformanceScore`: 0.1 when the agent has no
metrics object, otherwise `min 0.2 ((successRate + qualityScore/100)/2 * 0.2)`. -/
def calculatePerformanceScore (agent : Agent) : ℚ :=
  match agent.metrics with
  | none => 1/10
  | some m => ratMin (1/5) ((m.successRate + m.codeQualityScore / 100) / 2 * (1/5))

/-- `AgentMatchResult` from `src/agents/agent-registry.ts` (the `reasoning`
strings are presentation only and omitted). -/
structure AgentMatchResult where
  agent : Agent
  confidence : ℚ
deriving DecidableEq

/-- `AgentRegistry.calculateAgentTaskMatch`: the four signals summed and
clipped to at most 1. -/
def calculateAgentTaskMatch (agent : Agent) (task : Task) : AgentMatchResult :=
  { agent := agent,
    confidence := ratMin 1
      (getRoleTaskBonus agent.role task.type
        + calculateCapabilityScore agent task
        + calculateLoadScore agent
        + calculatePerformanceScore agent) }

/-- The candidate filter of `findBestAgentForTask`: Active agents that can
handle the task, in the registry map's insertion order. -/
def candidateAgents (agents : List Agent) (task : Task) : List Agent :=
  agents.filter (fun agent =>
    agent.status == AgentStatus.active && canAgentHandleTask agent task)

/-- The loop body of `findBestAgentForTask`: keep the incumbent unless the
new candidate scores STRICTLY higher. -/
def bestStep (task : Task) (best : Option AgentMatchResult) (agent : Agent) :
    Option AgentMatchResult :=
  let matchResult := calculateAgentTaskMatch agent task
  match best with
  | none => some matchResult
  | some b => if b.confidence < matchResult.confidence then some matchResult else some b

/-- `AgentRegistry.findBestAgentForTask`. -/
def findBestAgentForTask (agents : List Agent) (task : Task) : Option AgentMatchResult :=
  let availableAgents := candidateAgents agents task
  if availableAgents.isEmpty then none
  else availableAgents.foldl (bestStep task) none

/-- The capability-coverage signal as claim C6 states it, for comparison
with the source's `calculateCapabilityScore`: `min 0.3 (m/n * 0.3)` where
`n` counts technical requirements and `m` counts technical requirements
whose description occurs case-insensitively inside some capability name
(the substring direction the specification uses for the candidate set). -/
def claimedCapabilitySignal (agent : Agent) (task : Task) : ℚ :=
  let technicalReqs := task.requirements.filter
    (fun req => req.type == RequirementType.technical)
  if technicalReqs.length == 0 then 1/5
  else
    let matchedReqs := technicalReqs.filter
      (fun req => agent.capabilities.any
        (fun capability => strIncludes (strToLower capability.name) (strToLower req.description)))
    ratMin (3/10) (((matchedReqs.length : ℚ) / (technicalReqs.length : ℚ)) * (3/10))

/-- An agent holding capabilities named `java` and `script`, used to separate
the source's capability counting from the claimed one. -/
def splitCapAgent : Agent :=
  { id := "c6", name := "Split Caps", role := AgentRole.backend,
    capabilities := [{ name := "java", level := 5, description := "" },
                     { name := "script", level := 5, description := "" }],
    status := AgentStatus.active, workingDirectory := "/w/c6", metrics := none }

/-- A task with two technical requirements, only the first of which overlaps
the capabilities of `splitCapAgent`. -/
def twoReqTask : Task :=
  { id := "t6", type := "api", title := "Two requirements",
    requirements := [{ id := "r1", description := "javascript frontend",
                       type := RequirementType.technical, satisfied := false },
                     { id := "r2", description := "database",
                       type := RequirementType.technical, satisfied := false }] }

/-- C6 counterexample: on `splitCapAgent`/`twoReqTask` the source counts the
two capabilities `java` and `script` against requirement descriptions
(yielding 2/2 of the cap, i.e. 0.3), while the claimed per-requirement count
yields 0, so the claimed formula is not the implemented one. -/
theorem capabilityScore_counterexample :
    calculateCapabilityScore splitCapAgent twoReqTask = 3/10 ∧
    claimedCapabilitySignal splitCapAgent twoReqTask = 0 ∧
    (3/10 : ℚ) ≠ 0 := by
  have h1 : (twoReqTask.requirements.filter
      fun req => req.type == RequirementType.technical).length = 2 := by decide
  have h2 : (splitCapAgent.capabilities.filter fun capability =>
      twoReqTask.requirements.any fun req =>
        strIncludes (strToLower req.description) (strToLower capability.name)).length = 2 := by decide
  have h3 : ((twoReqTask.requirements.filter
      fun req => req.type == RequirementType.technical).filter fun req =>
        splitCapAgent.capabilities.any fun capability =>
          strIncludes (strToLower capability.name) (strToLower req.description)).length = 0 := by decide
  refine ⟨?_, ?_, by norm_num⟩
  · simp only [calculateCapabilityScore, h1, h2]
    norm_num [ratMin]
  · simp only [claimedCapabilitySignal, h1, h3]
    norm_num [ratMin]

/-- C6 amended: with zero technical requirements the signal is the flat 0.2;
with `n ≥ 1` technical requirements it is `min 0.3 (k/n * 0.3)` where `k`
counts the AGENT'S CAPABILITIES whose name occurs case-insensitively inside
the description of some requirement of the task (of any type). -/
theorem calculateCapabilityScore_amended (agent : Agent) (task : Task) :
    ((task.requirements.filter (fun req => req.type == RequirementType.technical)).length = 0 →
      calculateCapabilityScore agent task = 1/5) ∧
    (0 < (task.requirements.filter (fun req => req.type == RequirementType.technical)).length →
      calculateCapabilityScore agent task =
        ratMin (3/10)
          (((agent.capabilities.countP (fun capability => task.requirements.any
              (fun req => strIncludes (strToLower req.description) (strToLower capability.name))) : ℚ) /
            ((task.requirements.filter
              (fun req => req.type == RequirementType.technical)).length : ℚ)) * (3/10))) := by
  constructor
  · intro h
    unfold calculateCapabilityScore
    simp [h]
  · intro h
    unfold calculateCapabilityScore
    rw [List.countP_eq_length_filter]
    simp only [Nat.pos_iff_ne_zero] at h
    simp [h]

/-- Witness for C6's amended theorem at `splitCapAgent`/`twoReqTask`:
`k = 2`, `n = 2`, so the signal is `min 0.3 (2/2 * 0.3) = 0.3`. -/
theorem calculateCapabilityScore_amended_witness :
    calculateCapabilityScore splitCapAgent twoReqTask =
      ratMin (3/10)
        (((splitCapAgent.capabilities.countP (fun capability => twoReqTask.requirements.any
            (fun req => strIncludes (strToLower req.description) (strToLower capability.name))) : ℚ) /
          ((twoReqTask.requirements.filter
            (fun req => req.type == RequirementType.technical)).length : ℚ)) * (3/10)) :=
  (calculateCapabilityScore_amended splitCapAgent twoReqTask).2 (by decide)

/-- The Active frontend agent of specification scenario A, holding a
`javascript` capability. -/
def scenarioFrontend : Agent :=
  { id := "fe", name := "Frontend", role := AgentRole.frontend,
    capabilities := [{ name := "javascript", level := 8, description := "JS" }],
    status := AgentStatus.active, workingDirectory := "/w/fe", metrics := none }

/-- The Active backend agent of scenario A. -/
def scenarioBackend : Agent :=
  { id := "be", name := "Backend", role := AgentRole.backend,
    capabilities := [{ name := "api", level := 8, description := "API" }],
    status := AgentStatus.active, workingDirectory := "/w/be", metrics := none }

/-- The Active QA agent of scenario A. -/
def scenarioQa : Agent :=
  { id := "qa", name := "QA", role := AgentRole.qa,
    capabilities := [{ name := "testing", level := 8, description := "tests" }],
    status := AgentStatus.active, workingDirectory := "/w/qa", metrics := none }

/-- The scenario A task: type `feature`, one technical requirement
`javascript`. -/
def featureTask : Task :=
  { id := "t1", type := "feature", title := "Feature",
    requirements := [{ id := "r1", description := "javascript",
                       type := RequirementType.technical, satisfied := false }] }

/-- Evaluation of scenario A, shared by the C7 counterexample and its
amended theorem: only the frontend agent survives the candidate filter, and
its confidence evaluates to 3/5. -/
theorem scenarioA_eval :
    findBestAgentForTask [scenarioFrontend, scenarioBackend, scenarioQa] featureTask =
      some { agent := scenarioFrontend, confidence := 3/5 } := by
  have hcand : candidateAgents [scenarioFrontend, scenarioBackend, scenarioQa] featureTask =
      [scenarioFrontend] := by decide
  have hrole : getRoleTaskBonus scenarioFrontend.role featureTask.type = 0 := by
    have hkw : ((roleKeywords scenarioFrontend.role).any
        fun keyword => strIncludes (strToLower featureTask.type) keyword) = false := by decide
    simp [getRoleTaskBonus, hkw]
  have hcap : calculateCapabilityScore scenarioFrontend featureTask = 3/10 := by
    have h1 : (featureTask.requirements.filter
        fun req => req.type == RequirementType.technical).length = 1 := by decide
    have h2 : (scenarioFrontend.capabilities.filter fun capability =>
        featureTask.requirements.any fun req =>
          strIncludes (strToLower req.description) (strToLower capability.name)).length = 1 := by decide
    simp only [calculateCapabilityScore, h1, h2]
    norm_num [ratMin]
  have hload : calculateLoadScore scenarioFrontend = 1/5 := rfl
  have hperf : calculatePerformanceScore scenarioFrontend = 1/10 := rfl
  have hmatch : calculateAgentTaskMatch scenarioFrontend featureTask =
      { agent := scenarioFrontend, confidence := 3/5 } := by
    unfold calculateAgentTaskMatch
    rw [hrole, hcap, hload, hperf]
    norm_num [ratMin]
  unfold findBestAgentForTask
  rw [hcand]
  simp [bestStep, hmatch]

/-- C7 counterexample: in scenario A the frontend agent does win, but with
confidence 3/5 = 0.6, not the claimed 0.9 — the task type `feature` contains
none of the frontend role keywords, so the role-affinity signal is 0. -/
theorem findBest_scenarioA_counterexample :
    findBestAgentForTask [scenarioFrontend, scenarioBackend, scenarioQa] featureTask =
      some { agent := scenarioFrontend, confidence := 3/5 } ∧
    (3/5 : ℚ) ≠ 9/10 := by
  refine ⟨scenarioA_eval, by norm_num⟩

/-- C7 amended: in scenario A the frontend agent wins with confidence
exactly 0.6 = 0 (role affinity, since "feature" matches no frontend
keyword) + 0.3 (capability coverage) + 0.2 (Active load) + 0.1 (default
performance with no metrics). -/
theorem findBest_scenarioA_amended :
    findBestAgentForTask [scenarioFrontend, scenarioBackend, scenarioQa] featureTask =
      some { agent := scenarioFrontend, confidence := 3/5 } ∧
    (3/5 : ℚ) = 0 + 3/10 + 1/5 + 1/10 := by
  refine ⟨scenarioA_eval, by norm_num⟩

/-- Folding `bestStep` keeps an incumbent whose confidence no later
candidate strictly exceeds. -/
theorem bestStep_foldl_keeps (task : Task) (b : AgentMatchResult) :
    ∀ l : List Agent,
      (∀ x ∈ l, (calculateAgentTaskMatch x task).confidence ≤ b.confidence) →
      l.foldl (bestStep task) (some b) = some b := by
  intro l
  induction l with
  | nil => intro _; rfl
  | cons x xs ih =>
      intro h
      have hx : ¬ b.confidence < (calculateAgentTaskMatch x task).confidence :=
        not_lt.mpr (h x (List.mem_cons_self x xs))
      have hstep : bestStep task (some b) x = some b := by
        unfold bestStep
        simp [hx]
      rw [List.foldl_cons, hstep]
      exact ih (fun y hy => h y (List.mem_cons_of_mem x hy))

/-- Folding `bestStep` over candidates all strictly below a bound keeps the
accumulator strictly below that bound (the accumulator may change hands
among them, but never reaches the bound). -/
theorem bestStep_foldl_below (task : Task) (c : ℚ) :
    ∀ (l : List Agent) (acc : Option AgentMatchResult),
      (∀ x ∈ l, (calculateAgentTaskMatch x task).confidence < c) →
      (∀ m, acc = some m → m.confidence < c) →
      ∀ m, l.foldl (bestStep task) acc = some m → m.confidence < c := by
  intro l
  induction l with
  | nil => exact fun acc _ hacc m hm => hacc m hm
  | cons x xs ih =>
      intro acc hl hacc m hm
      rw [List.foldl_cons] at hm
      refine ih (bestStep task acc x) (fun y hy => hl y (List.mem_cons_of_mem x hy)) ?_ m hm
      intro m' hm'
      cases acc with
      | none =>
          cases hm'
          exact hl x (List.mem_cons_self x xs)
      | some b =>
          by_cases hlt : b.confidence < (calculateAgentTaskMatch x task).confidence
          · rw [show bestStep task (some b) x = some (calculateAgentTaskMatch x task) by
              simp only [bestStep]; rw [if_pos hlt]] at hm'
            cases hm'
            exact hl x (List.mem_cons_self x xs)
          · rw [show bestStep task (some b) x = some b by
              simp only [bestStep]; rw [if_neg hlt]] at hm'
            cases hm'
            exact hacc _ rfl

/-- A candidate strictly better than the incumbent (or facing no incumbent)
takes over the accumulator. -/
theorem bestStep_takeover (task : Task) (a : Agent) (acc : Option AgentMatchResult)
    (hacc : ∀ m, acc = some m →
      m.confidence < (calculateAgentTaskMatch a task).confidence) :
    bestStep task acc a = some (calculateAgentTaskMatch a task) := by
  cases acc with
  | none => rfl
  | some b =>
      simp only [bestStep]
      rw [if_pos (hacc b rfl)]

/-- C8: `findBestAgentForTask` is deterministic (a pure function of the
registry's agent list and the task, so repeated calls agree), and the
winner is the FIRST candidate in insertion order attaining the maximum
confidence: decompose the candidate list as `pre ++ a :: post` where every
candidate before `a` scores strictly below `a` and every candidate after
`a` scores at most `a` — so on ties for the maximum, wherever they occur,
the first-encountered maximal candidate wins. -/
theorem findBestAgentForTask_deterministic_tiebreak (agents : List Agent) (task : Task)
    (pre : List Agent) (a : Agent) (post : List Agent)
    (hc : candidateAgents agents task = pre ++ a :: post)
    (hpre : ∀ b ∈ pre,
      (calculateAgentTaskMatch b task).confidence <
        (calculateAgentTaskMatch a task).confidence)
    (hpost : ∀ b ∈ post,
      (calculateAgentTaskMatch b task).confidence ≤
        (calculateAgentTaskMatch a task).confidence) :
    findBestAgentForTask agents task = findBestAgentForTask agents task ∧
    findBestAgentForTask agents task = some (calculateAgentTaskMatch a task) := by
  refine ⟨rfl, ?_⟩
  unfold findBestAgentForTask
  rw [hc]
  have hne : (pre ++ a :: post).isEmpty = false := by simp
  simp only [hne, Bool.false_eq_true, if_false]
  rw [List.foldl_append, List.foldl_cons]
  have hmid : bestStep task (pre.foldl (bestStep task) none) a =
      some (calculateAgentTaskMatch a task) :=
    bestStep_takeover task a _
      (bestStep_foldl_below task _ pre none hpre (fun m hm => by cases hm))
  rw [hmid]
  exact bestStep_foldl_keeps task (calculateAgentTaskMatch a task) post hpost

/-- A lower-scoring Active frontend agent preceding the tied pair (its role
keywords miss the task type `api`, so it scores 0.5). -/
def lowAgent : Agent :=
  { id := "tl", name := "Tie Low", role := AgentRole.frontend,
    capabilities := [], status := AgentStatus.active,
    workingDirectory := "/w/tl", metrics := none }

/-- First of two identically-scored Active backend agents (0.8 each on
`tieTask`). -/
def tieAgentA : Agent :=
  { id := "ta", name := "Tie A", role := AgentRole.backend,
    capabilities := [], status := AgentStatus.active,
    workingDirectory := "/w/ta", metrics := none }

/-- Second of two identically-scored Active backend agents. -/
def tieAgentB : Agent :=
  { id := "tb", name := "Tie B", role := AgentRole.backend,
    capabilities := [], status := AgentStatus.active,
    workingDirectory := "/w/tb", metrics := none }

/-- A task with no technical requirements so all three tie-scenario agents
are candidates. -/
def tieTask : Task :=
  { id := "tt", type := "api", title := "Tied", requirements := [] }

/-- Witness for C8 on candidate confidences [0.5, 0.8, 0.8]: the tie for
the maximum occurs after a lower-scoring candidate, and the
first-encountered maximal candidate (`tieAgentA`) wins. -/
theorem findBestAgentForTask_deterministic_tiebreak_witness :
    findBestAgentForTask [lowAgent, tieAgentA, tieAgentB] tieTask =
      some (calculateAgentTaskMatch tieAgentA tieTask) :=
  (findBestAgentForTask_deterministic_tiebreak [lowAgent, tieAgentA, tieAgentB] tieTask
    [lowAgent] tieAgentA [tieAgentB] (by decide)
    (by
      intro b hb
      rw [List.mem_singleton] at hb
      subst hb
      have hL : (calculateAgentTaskMatch lowAgent tieTask).confidence = 1/2 := by
        have hkw : ((roleKeywords lowAgent.role).any
            fun keyword => strIncludes (strToLower tieTask.type) keyword) = false := by decide
        have h1 : getRoleTaskBonus lowAgent.role tieTask.type = 0 := by
          simp [getRoleTaskBonus, hkw]
        unfold calculateAgentTaskMatch
        rw [h1]
        norm_num [ratMin, calculateCapabilityScore, calculateLoadScore,
          calculatePerformanceScore, lowAgent, tieTask]
      have hA : (calculateAgentTaskMatch tieAgentA tieTask).confidence = 4/5 := by
        have hkw : ((roleKeywords tieAgentA.role).any
            fun keyword => strIncludes (strToLower tieTask.type) keyword) = true := by decide
        have h1 : getRoleTaskBonus tieAgentA.role tieTask.type = 3/10 := by
          simp [getRoleTaskBonus, hkw]
        unfold calculateAgentTaskMatch
        rw [h1]
        norm_num [ratMin, calculateCapabilityScore, calculateLoadScore,
          calculatePerformanceScore, tieAgentA, tieTask]
      rw [hL, hA]
      norm_num)
    (by
      intro b hb
      rw [List.mem_singleton] at hb
      subst hb
      exact le_of_eq rfl)).2

/-- `TaskResult` from `src/types/task.types.ts` (fields the agent code
writes; `completedAt` is a wall-clock reading carried outside the model). -/
structure TaskResult where
  taskId : String
  success : Bool
  error : Option String
  duration : Nat
deriving DecidableEq

/-- The outcome of the abstract `performTask` body: a resolved `TaskResult`
or a thrown error with its message. -/
inductive TaskOutcome
  | ok (result : TaskResult)
  | threw (msg : String)
deriving DecidableEq

/-- The `BaseAgent` state touched by `executeTask`: status, the current
task slot and the rolling metrics. -/
structure BAgent where
  id : String
  status : AgentStatus
  currentTask : Option Task
  metrics : AgentMetrics
deriving DecidableEq

/-- `BaseAgent.updateMetrics`.  Note the source's `totalTasks` is
`tasksCompleted + (result.success ? 0 : 1)`: completed successes plus one
for the current failure, NOT the number of attempted tasks — past failures
are forgotten. -/
def updateMetrics (m : AgentMetrics) (result : TaskResult) : AgentMetrics :=
  let tasksCompleted := if result.success then m.tasksCompleted + 1 else m.tasksCompleted
  let totalTasks : Nat := tasksCompleted + (if result.success then 0 else 1)
  let averageTaskDuration :=
    (m.averageTaskDuration * ((totalTasks : ℚ) - 1) + (result.duration : ℚ)) / (totalTasks : ℚ)
  let successRate := if 0 < totalTasks then (tasksCompleted : ℚ) / (totalTasks : ℚ) else 0
  { m with
      tasksCompleted := tasksCompleted
      averageTaskDuration := averageTaskDuration
      successRate := successRate }

/-- `BaseAgent.executeTask`.  The source wraps the whole body in
`try/catch` and both paths return a `TaskResult`, so the model is a total
function: `executeTask` never rejects.  `canHandle` is the outcome of the
role-specific `canHandleTask` predicate and `body` the outcome of the
abstract `performTask`; `elapsed` is `Date.now() - startTime`.  There is no
check of the agent's status anywhere on the path. -/
def executeTask (a : BAgent) (task : Task) (canHandle : Bool) (body : TaskOutcome)
    (elapsed : Nat) : BAgent × TaskResult :=
  let a1 : BAgent := { a with status := AgentStatus.busy, currentTask := some task }
  if canHandle = false then
    let errorResult : TaskResult :=
      { taskId := task.id, success := false,
        error := some ("Agent " ++ a.id ++ " cannot handle task of type " ++ task.type),
        duration := elapsed }
    ({ a1 with
        metrics := updateMetrics a1.metrics errorResult,
        currentTask := none, status := AgentStatus.active }, errorResult)
  else
    match body with
    | TaskOutcome.threw msg =>
        let errorResult : TaskResult :=
          { taskId := task.id, success := false, error := some msg, duration := elapsed }
        ({ a1 with
            metrics := updateMetrics a1.metrics errorResult,
            currentTask := none, status := AgentStatus.active }, errorResult)
    | TaskOutcome.ok r =>
        let result : TaskResult := { r with duration := elapsed }
        ({ a1 with
            metrics := updateMetrics a1.metrics result,
            currentTask := none, status := AgentStatus.active }, result)

/-- C2: for an Active agent and a task body that throws, `executeTask`
returns (never rejects — the model is total) a failed `TaskResult` carrying
the thrown message and the measured duration, and afterwards the agent is
Active with no current task. -/
theorem executeTask_fault_isolated (a : BAgent) (task : Task) (msg : String)
    (elapsed : Nat) (_h : a.status = AgentStatus.active) :
    (executeTask a task true (TaskOutcome.threw msg) elapsed).2.success = false ∧
    (executeTask a task true (TaskOutcome.threw msg) elapsed).2.error = some msg ∧
    (executeTask a task true (TaskOutcome.threw msg) elapsed).2.duration = elapsed ∧
    (executeTask a task true (TaskOutcome.threw msg) elapsed).1.status = AgentStatus.active ∧
    (executeTask a task true (TaskOutcome.threw msg) elapsed).1.currentTask = none := by
  refine ⟨rfl, rfl, rfl, rfl, rfl⟩

/-- The Active agent used by the C2 witness. -/
def faultAgent : BAgent :=
  { id := "w1", status := AgentStatus.active, currentTask := none, metrics := initialMetrics }

/-- The task used by the C2, C5 and C9 concrete evaluations. -/
def faultTask : Task :=
  { id := "t9", type := "feature", title := "Boom", requirements := [] }

/-- Witness for C2 at a concrete Active agent and a body throwing `boom`. -/
theorem executeTask_fault_isolated_witness :
    (executeTask faultAgent faultTask true (TaskOutcome.threw "boom") 42).2.success = false ∧
    (executeTask faultAgent faultTask true (TaskOutcome.threw "boom") 42).2.error = some "boom" ∧
    (executeTask faultAgent faultTask true (TaskOutcome.threw "boom") 42).2.duration = 42 ∧
    (executeTask faultAgent faultTask true (TaskOutcome.threw "boom") 42).1.status = AgentStatus.active ∧
    (executeTask faultAgent faultTask true (TaskOutcome.threw "boom") 42).1.currentTask = none :=
  executeTask_fault_isolated faultAgent faultTask "boom" 42 rfl

/-- C9: `executeTask` checks no status precondition — from EVERY starting
status the body runs (its outcome fully determines the returned
`TaskResult`), and afterwards the agent is Active with its current task
cleared, whether the body succeeded or threw. -/
theorem executeTask_no_status_precondition (a : BAgent) (s : AgentStatus) (task : Task)
    (body : TaskOutcome) (elapsed : Nat) :
    (executeTask { a with status := s } task true body elapsed).1.status = AgentStatus.active ∧
    (executeTask { a with status := s } task true body elapsed).1.currentTask = none ∧
    (executeTask { a with status := s } task true body elapsed).2 =
      (match body with
       | TaskOutcome.ok r => { r with duration := elapsed }
       | TaskOutcome.threw msg =>
           { taskId := task.id, success := false, error := some msg, duration := elapsed }) := by
  cases body with
  | ok r => exact ⟨rfl, rfl, rfl⟩
  | threw msg => exact ⟨rfl, rfl, rfl⟩

/-- A sequence of `executeTask` calls against one agent: each step is the
body's outcome paired with its measured duration. -/
def runTasks (a : BAgent) (task : Task) (steps : List (TaskOutcome × Nat)) : BAgent :=
  steps.foldl (fun st step => (executeTask st task true step.1 step.2).1) a

/-- C5 (code bug): after a failed task (duration 100) followed by a
successful one (duration 300), the source's metrics read
`successRate = 1` and `averageTaskDuration = 300`, whereas the history's
success rate is 1/2 and its mean duration 200 — `updateMetrics` forgets
past failures because `totalTasks` counts only completed successes plus at
most the one current failure. -/
theorem metrics_forget_failures_bug :
    (runTasks faultAgent faultTask
      [(TaskOutcome.threw "boom", 100),
       (TaskOutcome.ok { taskId := "t9", success := true, error := none, duration := 0 }, 300)]).metrics.successRate = 1 ∧
    (runTasks faultAgent faultTask
      [(TaskOutcome.threw "boom", 100),
       (TaskOutcome.ok { taskId := "t9", success := true, error := none, duration := 0 }, 300)]).metrics.averageTaskDuration = 300 ∧
    (1 : ℚ) ≠ 1/2 ∧ (300 : ℚ) ≠ (100 + 300) / 2 := by
  refine ⟨?_, ?_, by norm_num, by norm_num⟩
  · show ((1 : Nat) : ℚ) / ((1 : Nat) : ℚ) = 1
    norm_num
  · show (((0 : ℚ) * (((1 : Nat) : ℚ) - 1) + ((100 : Nat) : ℚ)) / ((1 : Nat) : ℚ) *
        (((1 : Nat) : ℚ) - 1) + ((300 : Nat) : ℚ)) / ((1 : Nat) : ℚ) = 300
    norm_num

/-- `ConflictSection` from `src/types/git.types.ts`.  The declared type has
`theirs : string`, but the parser can (and does) push sections whose
`theirs` was never assigned, so the runtime value is modelled as optional
(`none` = JavaScript `undefined`). -/
structure ConflictSection where
  startLine : Nat
  endLine : Nat
  ours : String
  theirs : Option String
deriving DecidableEq

/-- The parser's `currentConflict` accumulator (a partial section without
`endLine`). -/
structure PartialSection where
  startLine : Nat
  ours : String
  theirs : Option String
deriving DecidableEq

/-- The line scan of `AutomaticConflictResolver.parseConflictFile`,
branch-for-branch.  On a `=======` line with an open section the source
executes `currentConflict.ours = currentConflict.ours || ''` — a no-op that
never initialises `theirs`; consequently the truthiness test
`!currentConflict.theirs` stays true and every content line (on either side
of `=======`) is appended to `ours`.  The source's inner
`else if (line.startsWith('======='))` branch (which would set
`theirs = ''`) is kept in the model but is unreachable. -/
def parseConflictLines : List String → Nat → Option PartialSection → List ConflictSection
  | [], _, _ => []
  | line :: rest, lineNumber, cur =>
    let n := lineNumber + 1
    if strStartsWith line "<<<<<<<" then
      parseConflictLines rest n (some { startLine := n, ours := "", theirs := none })
    else if strStartsWith line "=======" && cur.isSome then
      parseConflictLines rest n cur
    else
      match cur with
      | none => parseConflictLines rest n none
      | some c =>
        if strStartsWith line ">>>>>>>" then
          { startLine := c.startLine, endLine := n, ours := c.ours, theirs := c.theirs } ::
            parseConflictLines rest n none
        else if !(strStartsWith line "=======") then
          if (match c.theirs with | none => true | some t => t = "") then
            parseConflictLines rest n (some { c with ours := c.ours ++ line ++ "\n" })
          else
            parseConflictLines rest n
              (some { c with theirs := some (c.theirs.getD "" ++ line ++ "\n") })
        else
          parseConflictLines rest n (some { c with theirs := some "" })

/-- `parseConflictFile` restricted to its section-scanning core (the
returned `ConflictInfo` wrapper adds `severity` and `autoResolvable`,
which no claim here references): split the file content on newlines and
scan. -/
def parseConflictFile (content : String) : List ConflictSection :=
  parseConflictLines (splitOnChar (Char.ofNat 10) content.toList) 0 none

/-- C3 (code bug): on a minimal well-formed one-section conflict file the
parser returns the right section count and line bounds, but `ours` holds
BOTH sides' text (`"alpha\nbeta\n"` instead of `"alpha\n"`) and `theirs`
is never assigned (undefined, not `"beta\n"`). -/
theorem parseConflictFile_theirs_bug :
    parseConflictFile "<<<<<<< HEAD\nalpha\n=======\nbeta\n>>>>>>> branch\n" =
      [{ startLine := 1, endLine := 5, ours := "alpha\nbeta\n", theirs := none }] ∧
    "alpha\nbeta\n" ≠ "alpha\n" ∧
    (none : Option String) ≠ some "beta\n" := by
  refine ⟨by decide, by decide, by decide⟩

/-- Worktree status from `src/types/git.types.ts`. -/
inductive WorktreeStatus
  | active
  | inactive
  | corrupted
deriving DecidableEq

/-- `WorktreeInfo` from `src/types/git.types.ts`; `lastActivity` is a
millisecond timestamp. -/
structure WorktreeInfo where
  id : String
  path : String
  branch : String
  agentId : String
  status : WorktreeStatus
  lastActivity : Int
deriving DecidableEq

/-- `GitOperationResult` from `src/types/git.types.ts`. -/
structure GitOperationResult where
  success : Bool
  output : Option String
  error : Option String
  duration : Nat
deriving DecidableEq

/-- The `WorktreeManager`'s `worktrees` map (insertion-ordered, keyed by
agent id). -/
structure WorktreeManagerState where
  worktrees : List (String × WorktreeInfo)
deriving DecidableEq

/-- `WorktreeManager.removeWorktreeDirectory`.  The git-level and
filesystem-level removal attempts are external effects, modelled by the
oracle `fsFailure`: `none` means removal succeeded, `some msg` means the
final filesystem fallback threw with message `msg` (caught by the method's
own `try/catch`, which converts it into a failed result — it never
rejects). -/
def removeWorktreeDirectory (fsFailure : String → Option String)
    (worktreePath : String) : GitOperationResult :=
  match fsFailure worktreePath with
  | none =>
      { success := true, output := some ("Worktree removed from " ++ worktreePath),
        error := none, duration := 0 }
  | some msg =>
      { success := false, output := none, error := some msg, duration := 0 }

/-- `WorktreeManager.removeWorktreeForAgent`.  Every path returns a
`GitOperationResult` (the body is one big `try/catch`), so the model is a
total function: the method never rejects.  The map entry is deleted only on
a successful directory removal. -/
def removeWorktreeForAgent (fsFailure : String → Option String)
    (s : WorktreeManagerState) (agentId : String) (elapsed : Nat) :
    WorktreeManagerState × GitOperationResult :=
  match s.worktrees.lookup agentId with
  | none =>
      (s, { success := false, output := none,
            error := some ("No worktree found for agent " ++ agentId),
            duration := elapsed })
  | some worktree =>
      let result := removeWorktreeDirectory fsFailure worktree.path
      if result.success then
        ({ worktrees := s.worktrees.filter (fun p => !(p.1 == agentId)) },
          { result with duration := elapsed })
      else
        (s, { result with duration := elapsed })

/-- C10: `removeWorktreeForAgent` always returns a result carrying the
measured duration (totality of the model = it never rejects); an
unregistered agent id yields `success = false` with an error message and an
unchanged map; a failed removal leaves the map unchanged; the entry is
deleted exactly on `success = true`. -/
theorem removeWorktreeForAgent_spec (fsFailure : String → Option String)
    (s : WorktreeManagerState) (agentId : String) (elapsed : Nat) :
    (removeWorktreeForAgent fsFailure s agentId elapsed).2.duration = elapsed ∧
    (s.worktrees.lookup agentId = none →
      (removeWorktreeForAgent fsFailure s agentId elapsed).2.success = false ∧
      (removeWorktreeForAgent fsFailure s agentId elapsed).2.error.isSome = true ∧
      (removeWorktreeForAgent fsFailure s agentId elapsed).1 = s) ∧
    ((removeWorktreeForAgent fsFailure s agentId elapsed).2.success = false →
      (removeWorktreeForAgent fsFailure s agentId elapsed).1 = s) ∧
    ((removeWorktreeForAgent fsFailure s agentId elapsed).2.success = true →
      (removeWorktreeForAgent fsFailure s agentId elapsed).1.worktrees =
        s.worktrees.filter (fun p => !(p.1 == agentId))) := by
  cases hl : s.worktrees.lookup agentId with
  | none => simp [removeWorktreeForAgent, hl]
  | some worktree =>
      cases hf : fsFailure worktree.path with
      | none => simp [removeWorktreeForAgent, removeWorktreeDirectory, hl, hf]
      | some msg => simp [removeWorktreeForAgent, removeWorktreeDirectory, hl, hf]

/-- Witness for C10: removing a worktree for an unknown agent id on an
empty manager fails with an error and leaves the (empty) map unchanged. -/
theorem removeWorktreeForAgent_spec_witness :
    (removeWorktreeForAgent (fun _ => none) { worktrees := [] } "a9" 7).2.success = false ∧
    (removeWorktreeForAgent (fun _ => none) { worktrees := [] } "a9" 7).1 =
      { worktrees := [] } := by
  have h := removeWorktreeForAgent_spec (fun _ => none) { worktrees := [] } "a9" 7
  exact ⟨(h.2.1 rfl).1, (h.2.1 rfl).2.2⟩

/-- The 24-hour staleness threshold of `cleanupStaleWorktrees`, in
milliseconds. -/
def staleThreshold : Int := 24 * 60 * 60 * 1000

/-- `WorktreeManager.cleanupStaleWorktrees` at time `now`: for each entry
(iterating the map snapshot in insertion order) whose inactivity strictly
exceeds 24 hours, call `removeWorktreeForAgent`.  The source wraps that
call in `try/catch` whose catch marks the record `corrupted`; since
`removeWorktreeForAgent` never throws (it returns failures as result
values), that catch never executes and is therefore absent from the
model. -/
def cleanupStaleWorktrees (fsFailure : String → Option String) (now : Int)
    (s : WorktreeManagerState) : WorktreeManagerState :=
  s.worktrees.foldl
    (fun st entry =>
      if staleThreshold < now - entry.2.lastActivity then
        (removeWorktreeForAgent fsFailure st entry.1 0).1
      else st)
    s

/-- The stale worktree of the C4 failing input: last active at time 0. -/
def staleWorktree : WorktreeInfo :=
  { id := "a1", path := "/repo/worktrees/agent-a1", branch := "agent-a1-0",
    agentId := "a1", status := WorktreeStatus.active, lastActivity := 0 }

/-- C4 (code bug): a worktree 25 hours inactive whose directory removal
fails stays in the map with its status STILL `active` — it is never marked
`corrupted`, because the catch block that would do so is dead code
(`removeWorktreeForAgent` returns a failed result instead of throwing). -/
theorem cleanupStaleWorktrees_corrupted_bug :
    (cleanupStaleWorktrees (fun _ => some "rm failed") 90000000
        { worktrees := [("a1", staleWorktree)] }).worktrees.lookup "a1" =
      some staleWorktree ∧
    staleWorktree.status = WorktreeStatus.active ∧
    WorktreeStatus.active ≠ WorktreeStatus.corrupted := by
  refine ⟨by decide, rfl, by decide⟩

end MADO
